import Mathlib

/-!
Verification development for the `userService` REST API backend
(apiserver, model, store packages).

The HTTP handlers, middleware chain, session configuration and router are
embedded shallowly from `internal/app/apiserver/server.go` and its fuller
variant.  The `model` package (User entity, validation, hashing) and the two
store implementations (`sqlstore`, `teststore`) are not part of the sources
at hand — only their tests and callers are — so those definitions are
modelled from the specification, as indicated by their doc comments.
-/

/-- The User entity, from the spec's data model: `ID` (integer, assigned by
the store), `Email`, transient plaintext `Password`, and persisted
`EncryptedPassword`.  Go `int` is embedded as `Int`. -/
structure User where
  id : Int
  email : String
  password : String
  encryptedPassword : String
  deriving Repr, DecidableEq

/-- Modelled from the spec: the bcrypt salted one-way hash (the `model`
package and `golang.org/x/crypto/bcrypt` are external to the sources at
hand).  The spec requires only that `ComparePassword` be true iff the hash
of the candidate matches `EncryptedPassword`, i.e. collision-free
comparison; the hash is therefore modelled as an injective tagging
function. -/
def hashPassword (p : String) : String :=
  "bcrypt2a10$" ++ p

/-- Modelled from the spec: syntactic email validity ("RFC-like email
format"; the validator library is external).  A non-empty local part and a
non-empty domain separated by a single `@`, the domain containing a single
dot with non-empty parts on both sides. -/
def validEmail (e : String) : Bool :=
  let cs := e.data
  let localPart := cs.takeWhile (fun c => c ≠ '@')
  let domain := (cs.dropWhile (fun c => c ≠ '@')).drop 1
  cs.count '@' == 1 && localPart ≠ [] && domain ≠ [] &&
    domain.count '.' == 1 &&
    domain.takeWhile (fun c => c ≠ '.') ≠ [] &&
    (domain.dropWhile (fun c => c ≠ '.')).drop 1 ≠ []

/-- Modelled from the spec: `Validate()` — Email non-empty and
syntactically valid, and either `Password` length ≥ 6 or
`EncryptedPassword` already populated. -/
def User.validate (u : User) : Bool :=
  validEmail u.email && (decide (6 ≤ u.password.length) || u.encryptedPassword ≠ "")

/-- Modelled from the spec: `BeforeCreate()` — if `Password` is set,
compute the salted hash and store it in `EncryptedPassword`. -/
def User.beforeCreate (u : User) : User :=
  if u.password ≠ "" then { u with encryptedPassword := hashPassword u.password } else u

/-- Modelled from the spec: `Sanitize()` — clear the plaintext `Password`. -/
def User.sanitize (u : User) : User :=
  { u with password := "" }

/-- Modelled from the spec: `ComparePassword(candidate)` — true iff the
hash of the candidate matches `EncryptedPassword`. -/
def User.comparePassword (u : User) (candidate : String) : Bool :=
  hashPassword candidate == u.encryptedPassword

/-- Classified store errors, from the spec's error taxonomy
(§4.2 / §7): `ErrRecordNotFound` (named as in `store` and used by the
tests), a validation failure, and a duplicate-key classification. -/
inductive StoreErr where
  | errRecordNotFound
  | validationFailure
  | duplicateKey
  deriving Repr, DecidableEq

/-- The `err.Error()` text echoed by handlers.  Only `errRecordNotFound`
is pinned by the repository's tests; the others follow the spec's
taxonomy names. -/
def StoreErr.message : StoreErr → String
  | .errRecordNotFound => "record not found"
  | .validationFailure => "validation failure"
  | .duplicateKey => "duplicate key value violates unique constraint"

/-- Modelled from the spec (§4.3, in-memory store): a process-local map
from assigned integer ID to User plus a secondary index from Email to ID,
with a sequential ID counter. -/
structure TestStore where
  users : List (Int × User)
  emailIndex : List (String × Int)
  nextID : Int
  deriving Repr

/-- A fresh in-memory store; the first assigned sequential ID is 1. -/
def TestStore.empty : TestStore :=
  { users := [], emailIndex := [], nextID := 1 }

/-- Modelled from the spec: in-memory `Create` — validate, hash, reject
duplicate emails before insertion, assign the next sequential ID, backfill
it into the entity. -/
def TestStore.create (s : TestStore) (u : User) : Except StoreErr (TestStore × User) :=
  if ¬ u.validate then .error .validationFailure
  else if (s.emailIndex.lookup u.email).isSome then .error .duplicateKey
  else
    let hashed := u.beforeCreate
    let stored := { hashed with id := s.nextID }
    .ok ({ users := (s.nextID, stored) :: s.users,
           emailIndex := (stored.email, s.nextID) :: s.emailIndex,
           nextID := s.nextID + 1 }, stored)

/-- Modelled from the spec: in-memory `FindByEmail` — O(1) lookup through
the email index; `ErrRecordNotFound` on a miss, never a partial user. -/
def TestStore.findByEmail (s : TestStore) (e : String) : Except StoreErr User :=
  match s.emailIndex.lookup e with
  | none => .error .errRecordNotFound
  | some id =>
      match s.users.lookup id with
      | none => .error .errRecordNotFound
      | some u => .ok u

/-- Modelled from the spec: in-memory `Find` by ID. -/
def TestStore.find (s : TestStore) (id : Int) : Except StoreErr User :=
  match s.users.lookup id with
  | none => .error .errRecordNotFound
  | some u => .ok u

/-- A row of the persistent `users` table: generated primary key `id`,
unique non-null `email`, non-null `encrypted_password` (spec §6). -/
structure SqlRow where
  id : Int
  email : String
  encryptedPassword : String
  deriving Repr, DecidableEq

/-- Modelled from the spec (§4.3, persistent store): the relational
`users` table with its ID sequence. -/
structure SqlStore where
  rows : List SqlRow
  nextID : Int
  deriving Repr

/-- A fresh persistent store; the sequence starts at 1. -/
def SqlStore.empty : SqlStore :=
  { rows := [], nextID := 1 }

/-- Modelled from the spec: persistent `Create` — validate → hash →
insert (the unique-email constraint rejects a collision atomically) →
backfill the assigned ID. -/
def SqlStore.create (s : SqlStore) (u : User) : Except StoreErr (SqlStore × User) :=
  if ¬ u.validate then .error .validationFailure
  else if s.rows.any (fun row => row.email == u.email) then .error .duplicateKey
  else
    let hashed := u.beforeCreate
    .ok ({ rows := ⟨s.nextID, hashed.email, hashed.encryptedPassword⟩ :: s.rows,
           nextID := s.nextID + 1 },
         { hashed with id := s.nextID })

/-- Modelled from the spec: persistent `FindByEmail` — single-row lookup;
only the lookup-miss case maps to `ErrRecordNotFound`. -/
def SqlStore.findByEmail (s : SqlStore) (e : String) : Except StoreErr User :=
  match s.rows.find? (fun row => row.email == e) with
  | none => .error .errRecordNotFound
  | some row => .ok ⟨row.id, row.email, "", row.encryptedPassword⟩

/-- Modelled from the spec: persistent `Find` by ID. -/
def SqlStore.find (s : SqlStore) (id : Int) : Except StoreErr User :=
  match s.rows.find? (fun row => row.id == id) with
  | none => .error .errRecordNotFound
  | some row => .ok ⟨row.id, row.email, "", row.encryptedPassword⟩

/-- A status/body pair recorded each time the handler calls
`s.respond` (`w.WriteHeader(code)` then the JSON-encoded body, or an empty
body for `nil` data). -/
abbrev Write := Nat × String

/-- The JSON envelope produced by `s.error`: `json.NewEncoder` applied to
`map[string]string{"error": err.Error()}`, followed by the encoder's
newline. -/
def errorBody (msg : String) : String :=
  "\x7b\"error\":\"" ++ msg ++ "\"\x7d\n"

/-- `errIncorrectEmailOrPassword = errors.New("incorrect Email or Password")`
from `server.go`. -/
def errIncorrectEmailOrPassword : String := "incorrect Email or Password"

/-- `errNotAuthenticated = errors.New("not authenticated")`. -/
def errNotAuthenticated : String := "not authenticated"

/-- Modelled from the spec: the JSON serialization of `model.User` (the
`model` package is external to the sources at hand).  Per the spec, `id`
and `email` are serialized; the plaintext password field is emitted only
when non-empty and is never present after sanitization. -/
def serializeUser (u : User) : String :=
  "\x7b\"id\":" ++ toString u.id ++ ",\"email\":\"" ++ u.email ++ "\"" ++
    (if u.password = "" then "" else ",\"password\":\"" ++ u.password ++ "\"") ++
    "\x7d\n"

/-- An operation the login handler performs on the scs session manager, in
order: `RenewToken` (with its success flag) and `Put`. -/
inductive SessionOp where
  | renew (ok : Bool)
  | put (key : String) (value : Int)
  deriving Repr, DecidableEq

/-- The decoded `{"email", "password"}` request body shared by
`handleUsersCreate` and `handleSessionCreate`. -/
structure CredRequest where
  email : String
  password : String
  deriving Repr, DecidableEq

/-- The cookie attributes and lifetime set by `configureSessionManager`. -/
structure SessionConfig where
  lifetimeHours : Nat
  cookieName : String
  httpOnly : Bool
  sameSiteLax : Bool
  secure : Bool
  deriving Repr, DecidableEq

/-- `configureSessionManager` from `server.go`: 24-hour lifetime, cookie
named `session_id`, `HttpOnly`, `SameSite=Lax`, not `Secure`. -/
def configureSessionManager : SessionConfig :=
  { lifetimeHours := 24
    cookieName := "session_id"
    httpOnly := true
    sameSiteLax := true
    secure := false }

/-- `handleSessionCreate` from `server.go`.  `decoded` is the outcome of
`json.Decode` on the body (error text on failure); `findByEmail` is the
store's `FindByEmail`; `renewFails` says whether `RenewToken` errors (with
`renewErrMsg` its text).  Returns the session operations performed and the
sequence of response writes.  Note the Go code does not `return` after a
`RenewToken` failure: it writes the 500 error, still calls `Put`, and then
writes the 200 response. -/
def handleSessionCreate (findByEmail : String → Except StoreErr User)
    (renewFails : Bool) (renewErrMsg : String)
    (decoded : Except String CredRequest) : List SessionOp × List Write :=
  match decoded with
  | .error msg => ([], [(400, errorBody msg)])
  | .ok req =>
      match findByEmail req.email with
      | .error _ => ([], [(401, errorBody errIncorrectEmailOrPassword)])
      | .ok u =>
          if ¬ u.comparePassword req.password then
            ([], [(401, errorBody errIncorrectEmailOrPassword)])
          else if renewFails then
            ([.renew false, .put "user_id" u.id],
             [(500, errorBody renewErrMsg), (200, "")])
          else
            ([.renew true, .put "user_id" u.id], [(200, "")])

/-- `handleUsersCreate` from `server.go`: decode (400 on failure), build a
User from the payload, delegate to the store's `Create` (422 on failure),
sanitize, respond 201 with the sanitized user. -/
def handleUsersCreate (create : User → Except StoreErr User)
    (decoded : Except String CredRequest) : List Write :=
  match decoded with
  | .error msg => [(400, errorBody msg)]
  | .ok req =>
      match create ⟨0, req.email, req.password, ""⟩ with
      | .error e => [(422, errorBody e.message)]
      | .ok u => [(201, serializeUser u.sanitize)]

/-- `sessionManager.GetInt(ctx, key)`: the stored integer, or 0 when the
key is absent. -/
def getInt (data : List (String × Int)) (key : String) : Int :=
  (data.lookup key).getD 0

/-- `authenticateUser` from the server: read `user_id` from the session
(0 when absent) — 401 `not authenticated` if zero; `Find` it — 401 again
on failure; otherwise run the wrapped handler with the resolved user
stored in the request context (`some u`). -/
def authenticateUser (find : Int → Except StoreErr User)
    (sessionData : List (String × Int))
    (next : Option User → Option (List Write)) : Option (List Write) :=
  let id := getInt sessionData "user_id"
  if id == 0 then some [(401, errorBody errNotAuthenticated)]
  else
    match find id with
    | .error _ => some [(401, errorBody errNotAuthenticated)]
    | .ok u => next (some u)

/-- `handleWoami` from the server: the unchecked type assertion
`r.Context().Value(ctxKeyUser).(*model.User)` — `none` (a panic) when the
context value is absent, otherwise respond 200 with the user as JSON. -/
def handleWoami (ctxUser : Option User) : Option (List Write) :=
  match ctxUser with
  | none => none
  | some u => some [(200, serializeUser u)]

/-- The private `ServeMux` registered by `configureRouter`: only
`/whoami` → `handleWoami`; anything else is the mux's 404. -/
def privateMux (ctxUser : Option User) (path : String) : Option (List Write) :=
  if path == "/whoami" then handleWoami ctxUser
  else some [(404, "404 page not found\n")]

/-- The router configured by `configureRouter`: `/users` and `/session`
are public; everything under `/private/` is stripped of the prefix and
dispatched through `authenticateUser` to the private mux; `/whoami` is
registered nowhere else. -/
def routerDispatch (create : User → Except StoreErr User)
    (findByEmail : String → Except StoreErr User)
    (find : Int → Except StoreErr User)
    (sessionData : List (String × Int))
    (renewFails : Bool) (renewErrMsg : String)
    (decoded : Except String CredRequest)
    (path : String) : Option (List Write) :=
  if path == "/users" then some (handleUsersCreate create decoded)
  else if path == "/session" then
    some (handleSessionCreate findByEmail renewFails renewErrMsg decoded).2
  else if "/private/".isPrefixOf path then
    authenticateUser find sessionData (fun ctxUser => privateMux ctxUser (path.drop 8))
  else some [(404, "404 page not found\n")]

/-- A middleware stage of the request pipeline, recorded in the order the
stages begin executing for a request. -/
inductive Stage where
  | requestId
  | accessLog
  | corsStage
  | sessionLoad
  | routerStage
  deriving Repr, DecidableEq

/-- An HTTP request as the middleware chain sees it: its method and path. -/
structure HttpRequest where
  method : String
  path : String
  deriving Repr, DecidableEq

/-- What a (possibly wrapped) handler produces for a request: the pipeline
stages entered in order, the response headers set in order, and the
response writes. -/
structure HandlerResult where
  stages : List Stage
  headers : List (String × String)
  writes : List Write
  deriving Repr, DecidableEq

/-- A handler in the middleware chain. -/
abbrev Handler := HttpRequest → HandlerResult

/-- `setRequestID`: set the fresh id as the `X-Request-ID` response header
and run the wrapped handler with the id attached to the request context. -/
def setRequestID (rid : String) (next : Handler) : Handler := fun r =>
  let res := next r
  { res with stages := .requestId :: res.stages,
             headers := ("X-Request-ID", rid) :: res.headers }

/-- `logRequest`: log start, run the wrapped handler through the
code-recording writer, log completion; the response is unchanged. -/
def logRequest (next : Handler) : Handler := fun r =>
  let res := next r
  { res with stages := .accessLog :: res.stages }

/-- `cors` from the server: always set the three CORS headers; answer
`OPTIONS` with 204 and no body without calling the wrapped handler. -/
def cors (next : Handler) : Handler := fun r =>
  let corsHeaders := [("Access-Control-Allow-Origin", "*"),
                      ("Access-Control-Allow-Methods", "GET, POST, PUT, DELETE, OPTIONS"),
                      ("Access-Control-Allow-Headers", "Content-Type, Authorization")]
  if r.method == "OPTIONS" then
    { stages := [.corsStage], headers := corsHeaders, writes := [(204, "")] }
  else
    let res := next r
    { res with stages := .corsStage :: res.stages,
               headers := corsHeaders ++ res.headers }

/-- `sessionManager.LoadAndSave`: hydrate the session from the cookie
before the wrapped handler runs and commit it afterwards; the dispatch
itself is unchanged. -/
def loadAndSave (next : Handler) : Handler := fun r =>
  let res := next r
  { res with stages := .sessionLoad :: res.stages }

/-- The router as the innermost handler of the chain, dispatching to the
route handlers. -/
def routed (dispatch : HttpRequest → List Write) : Handler := fun r =>
  { stages := [.routerStage], headers := [], writes := dispatch r }

/-- `ServeHTTP` from the server:
`setRequestID(logRequest(cors(sessionManager.LoadAndSave(router))))`. -/
def serveHTTP (rid : String) (dispatch : HttpRequest → List Write) : Handler :=
  setRequestID rid (logRequest (cors (loadAndSave (routed dispatch))))

theorem hashPassword_injective {a b : String}
    (h : hashPassword a = hashPassword b) : a = b := by
  unfold hashPassword at h
  have hd := congrArg String.data h
  simp [String.data_append] at hd
  exact congrArg String.mk hd

theorem list_lookup_eq_none_iff {α β : Type} [BEq α] [LawfulBEq α]
    (l : List (α × β)) (a : α) :
    l.lookup a = none ↔ a ∉ l.map Prod.fst := by
  induction l with
  | nil => simp
  | cons hd tl ih =>
      obtain ⟨k, v⟩ := hd
      by_cases hk : a = k
      · subst hk
        simp [List.lookup]
      · simp [List.lookup, beq_eq_false_iff_ne.mpr hk, ih, hk]

/-- C1 counterexample: the 401 body on a login failure is not the claimed
lowercase `incorrect email or password` — the code's error text capitalizes
`Email` and `Password`. -/
theorem handleSessionCreate_message_counterexample :
    (handleSessionCreate (fun _ => .error .errRecordNotFound) false ""
        (.ok ⟨"user@example.org", "password"⟩)).2
      ≠ [(401, errorBody "incorrect email or password")] := by
  decide

/-- C1 (amended): for every decoded POST /session body, a lookup miss and
a password mismatch both yield exactly the single 401 write with the
byte-identical generic body built from `incorrect Email or Password`; the
two causes are indistinguishable. -/
theorem handleSessionCreate_generic_401
    (findByEmail : String → Except StoreErr User)
    (renewFails : Bool) (renewErrMsg : String) (req : CredRequest)
    (h : (∃ e, findByEmail req.email = .error e) ∨
         (∃ u, findByEmail req.email = .ok u ∧
            u.comparePassword req.password = false)) :
    handleSessionCreate findByEmail renewFails renewErrMsg (.ok req) =
      ([], [(401, errorBody "incorrect Email or Password")]) := by
  unfold handleSessionCreate
  rcases h with ⟨e, he⟩ | ⟨u, hu, hc⟩
  · simp [he, errIncorrectEmailOrPassword]
  · simp [hu, hc, errIncorrectEmailOrPassword]

theorem handleSessionCreate_generic_401_witness :
    handleSessionCreate (fun _ => .error .errRecordNotFound) false ""
        (.ok ⟨"user@example.org", "password"⟩) =
      ([], [(401, errorBody "incorrect Email or Password")]) :=
  handleSessionCreate_generic_401 _ false "" ⟨"user@example.org", "password"⟩
    (.inl ⟨.errRecordNotFound, rfl⟩)

/-- C2: the authentication gate guarding the private mux — 401
`not authenticated` when the session's `user_id` is absent or zero, 401
again when `Find` fails on a nonzero id, and otherwise the wrapped
`/whoami` handler runs with the resolved user and returns it as JSON. -/
theorem authenticateUser_gate (find : Int → Except StoreErr User)
    (sessionData : List (String × Int)) :
    (getInt sessionData "user_id" = 0 →
       authenticateUser find sessionData
           (fun ctxUser => privateMux ctxUser "/whoami") =
         some [(401, errorBody errNotAuthenticated)]) ∧
    (∀ e, getInt sessionData "user_id" ≠ 0 →
       find (getInt sessionData "user_id") = .error e →
       authenticateUser find sessionData
           (fun ctxUser => privateMux ctxUser "/whoami") =
         some [(401, errorBody errNotAuthenticated)]) ∧
    (∀ u, getInt sessionData "user_id" ≠ 0 →
       find (getInt sessionData "user_id") = .ok u →
       authenticateUser find sessionData
           (fun ctxUser => privateMux ctxUser "/whoami") =
         some [(200, serializeUser u)]) := by
  refine ⟨fun h0 => ?_, fun e hne he => ?_, fun u hne hu => ?_⟩
  · simp [authenticateUser, h0]
  · simp [authenticateUser, hne, he]
  · simp [authenticateUser, hne, hu, privateMux, handleWoami]

theorem authenticateUser_gate_witness :
    authenticateUser (fun _ => .error .errRecordNotFound) []
        (fun ctxUser => privateMux ctxUser "/whoami") =
      some [(401, errorBody errNotAuthenticated)] :=
  (authenticateUser_gate (fun _ => .error .errRecordNotFound) []).1 rfl

/-- C3: POST /users — 400 on a body that fails to decode, 422 when the
store's `Create` fails, and otherwise 201 whose body is the sanitized
created user; the sanitized user's plaintext password is empty and its
serialized form carries no password field at all. -/
theorem handleUsersCreate_spec (create : User → Except StoreErr User) :
    (∀ msg, handleUsersCreate create (.error msg) = [(400, errorBody msg)]) ∧
    (∀ req e, create ⟨0, req.email, req.password, ""⟩ = .error e →
       handleUsersCreate create (.ok req) = [(422, errorBody e.message)]) ∧
    (∀ req u, create ⟨0, req.email, req.password, ""⟩ = .ok u →
       handleUsersCreate create (.ok req) = [(201, serializeUser u.sanitize)] ∧
       u.sanitize.password = "" ∧
       serializeUser u.sanitize =
         "\x7b\"id\":" ++ toString u.id ++ ",\"email\":\"" ++ u.email ++
           "\"" ++ "\x7d\n") := by
  refine ⟨fun msg => rfl, fun req e he => ?_, fun req u hu => ?_⟩
  · simp [handleUsersCreate, he]
  · refine ⟨?_, rfl, ?_⟩
    · simp [handleUsersCreate, hu]
    · simp [serializeUser, User.sanitize]

theorem handleUsersCreate_spec_witness :
    handleUsersCreate (fun u => (TestStore.empty.create u).map Prod.snd)
        (.ok ⟨"user@example.org", "password"⟩) =
      [(201, serializeUser
          (User.mk 1 "user@example.org" "password"
            (hashPassword "password")).sanitize)] ∧
    (User.mk 1 "user@example.org" "password"
        (hashPassword "password")).sanitize.password = "" ∧
    serializeUser (User.mk 1 "user@example.org" "password"
        (hashPassword "password")).sanitize =
      "\x7b\"id\":" ++ toString (1 : Int) ++ ",\"email\":\"" ++
        "user@example.org" ++ "\"" ++ "\x7d\n" :=
  (handleUsersCreate_spec _).2.2 ⟨"user@example.org", "password"⟩
    (User.mk 1 "user@example.org" "password" (hashPassword "password")) (by rfl)

theorem beforeCreate_email (v : User) : v.beforeCreate.email = v.email := by
  unfold User.beforeCreate
  split <;> rfl

/-- C4: with a syntactically valid email and a password of length ≥ 6, the
first `Create` succeeds on both backends and populates the entity's ID
(the fresh stores assign ID 1); any later `Create` with the same email —
against any store state already holding that email — fails with the
duplicate-key classification; and `Create` preserves distinctness of the
stored emails, so no two stored users ever share an email. -/
theorem create_unique_email (e p : String)
    (hv : validEmail e = true) (hp : 6 ≤ p.length) :
    (TestStore.empty.create ⟨0, e, p, ""⟩ =
       .ok ({ users := [(1, ⟨1, e, p, hashPassword p⟩)],
              emailIndex := [(e, 1)], nextID := 2 },
            ⟨1, e, p, hashPassword p⟩)) ∧
    (∀ s : TestStore, (s.emailIndex.lookup e).isSome = true → ∀ v : User,
       v.email = e → v.validate = true → s.create v = .error .duplicateKey) ∧
    (∀ (s s' : TestStore) (v u' : User), s.create v = .ok (s', u') →
       (s.emailIndex.map Prod.fst).Nodup → (s'.emailIndex.map Prod.fst).Nodup) ∧
    (SqlStore.empty.create ⟨0, e, p, ""⟩ =
       .ok ({ rows := [⟨1, e, hashPassword p⟩], nextID := 2 },
            ⟨1, e, p, hashPassword p⟩)) ∧
    (∀ s : SqlStore, s.rows.any (fun row => row.email == e) = true → ∀ v : User,
       v.email = e → v.validate = true → s.create v = .error .duplicateKey) ∧
    (∀ (s s' : SqlStore) (v u' : User), s.create v = .ok (s', u') →
       (s.rows.map SqlRow.email).Nodup → (s'.rows.map SqlRow.email).Nodup) := by
  have hpne : p ≠ "" := by
    intro hcon
    subst hcon
    simp [String.length] at hp
  have hval : (User.mk 0 e p "").validate = true := by
    simp [User.validate, hv, hp]
  refine ⟨?_, ?_, ?_, ?_, ?_, ?_⟩
  · simp [TestStore.create, TestStore.empty, hval, User.beforeCreate, hpne]
  · intro s hsome v hve hvv
    simp [TestStore.create, hvv, hve, hsome]
  · intro s s' v u' hok hnd
    unfold TestStore.create at hok
    by_cases hvv : v.validate = true
    · simp [hvv] at hok
      by_cases hsome : (s.emailIndex.lookup v.email).isSome = true
      · simp [hsome] at hok
      · simp [hsome] at hok
        obtain ⟨hs', hu'⟩ := hok
        subst hs'
        have hnone : s.emailIndex.lookup v.email = none := by
          rcases hlk : s.emailIndex.lookup v.email with _ | val
          · rfl
          · rw [hlk] at hsome
            simp at hsome
        have hmem := (list_lookup_eq_none_iff _ _).mp hnone
        show (List.map Prod.fst
          ((v.beforeCreate.email, s.nextID) :: s.emailIndex)).Nodup
        rw [List.map_cons, List.nodup_cons, beforeCreate_email]
        exact ⟨hmem, hnd⟩
    · simp [hvv] at hok
  · simp [SqlStore.create, SqlStore.empty, hval, User.beforeCreate, hpne]
  · intro s hdup v hve hvv
    simp [SqlStore.create, hvv, hve, hdup]
  · intro s s' v u' hok hnd
    unfold SqlStore.create at hok
    split at hok
    · exact Except.noConfusion hok
    · split at hok
      · exact Except.noConfusion hok
      · rename_i hnotdup
        simp only [Except.ok.injEq, Prod.mk.injEq] at hok
        obtain ⟨hs', hu'⟩ := hok
        subst hs'
        have hmem : v.beforeCreate.email ∉ s.rows.map SqlRow.email := by
          rw [beforeCreate_email]
          intro hcon
          obtain ⟨row, hrow, hemail⟩ := List.mem_map.mp hcon
          exact hnotdup (by
            simp [List.any_eq_true]
            exact ⟨row, hrow, hemail⟩)
        show (List.map SqlRow.email
          (⟨s.nextID, v.beforeCreate.email,
            v.beforeCreate.encryptedPassword⟩ :: s.rows)).Nodup
        rw [List.map_cons, List.nodup_cons]
        exact ⟨hmem, hnd⟩

theorem create_unique_email_witness :
    TestStore.empty.create ⟨0, "user@example.org", "password", ""⟩ =
      .ok ({ users := [(1, ⟨1, "user@example.org", "password",
                            hashPassword "password"⟩)],
             emailIndex := [("user@example.org", 1)], nextID := 2 },
           ⟨1, "user@example.org", "password", hashPassword "password"⟩) ∧
    SqlStore.empty.create ⟨0, "user@example.org", "password", ""⟩ =
      .ok ({ rows := [⟨1, "user@example.org", hashPassword "password"⟩],
             nextID := 2 },
           ⟨1, "user@example.org", "password", hashPassword "password"⟩) :=
  ⟨(create_unique_email "user@example.org" "password" (by decide) (by decide)).1,
   (create_unique_email "user@example.org" "password"
      (by decide) (by decide)).2.2.2.1⟩

/-- C5: on any store state not holding the email — in particular any state
where no user with that email was ever created — `FindByEmail` fails with
exactly `ErrRecordNotFound`, identically on both backends; the result is
the bare error, with no user value beside it. -/
theorem findByEmail_missing (e : String) :
    (∀ s : TestStore, e ∉ s.emailIndex.map Prod.fst →
       s.findByEmail e = .error .errRecordNotFound) ∧
    (∀ s : SqlStore, e ∉ s.rows.map SqlRow.email →
       s.findByEmail e = .error .errRecordNotFound) := by
  constructor
  · intro s hmem
    have hnone : s.emailIndex.lookup e = none :=
      (list_lookup_eq_none_iff _ _).mpr hmem
    simp [TestStore.findByEmail, hnone]
  · intro s hmem
    have hnone : s.rows.find? (fun row => row.email == e) = none := by
      rw [List.find?_eq_none]
      intro row hrow
      simp only [beq_iff_eq]
      intro hcon
      exact hmem (hcon ▸ List.mem_map_of_mem SqlRow.email hrow)
    simp [SqlStore.findByEmail, hnone]

theorem findByEmail_missing_witness :
    TestStore.empty.findByEmail "ghost@example.org" =
      .error .errRecordNotFound ∧
    SqlStore.empty.findByEmail "ghost@example.org" =
      .error .errRecordNotFound :=
  ⟨(findByEmail_missing "ghost@example.org").1 TestStore.empty
      (by simp [TestStore.empty]),
   (findByEmail_missing "ghost@example.org").2 SqlStore.empty
      (by simp [SqlStore.empty])⟩

/-- C6: for a user whose `EncryptedPassword` is the hash of the plaintext
`p`, `ComparePassword c` is true exactly when `c = p` — false for the
empty string and every near-miss. -/
theorem comparePassword_iff_eq (p c : String) (u : User)
    (h : u.encryptedPassword = hashPassword p) :
    u.comparePassword c = true ↔ c = p := by
  unfold User.comparePassword
  rw [h]
  simp only [beq_iff_eq]
  exact ⟨fun hc => hashPassword_injective hc, fun hc => by rw [hc]⟩

theorem comparePassword_iff_eq_witness :
    ((User.mk 1 "user@example.org" "" (hashPassword "password")).comparePassword ""
        = true ↔ ("" : String) = "password") ∧
    ((User.mk 1 "user@example.org" ""
        (hashPassword "password")).comparePassword "Password"
        = true ↔ ("Password" : String) = "password") ∧
    ((User.mk 1 "user@example.org" ""
        (hashPassword "password")).comparePassword "password"
        = true ↔ ("password" : String) = "password") :=
  ⟨comparePassword_iff_eq "password" "" _ rfl,
   comparePassword_iff_eq "password" "Password" _ rfl,
   comparePassword_iff_eq "password" "password" _ rfl⟩

/-- C7: the session cookie is named `session_id` with `HttpOnly` and
`SameSite=Lax`, the lifetime is 24 hours, and on every successful login
the handler's session operations are exactly the renewal followed by the
`Put` of `user_id` — the token is rotated before the user id is stored. -/
theorem sessionConfig_and_login_rotation :
    configureSessionManager.cookieName = "session_id" ∧
    configureSessionManager.httpOnly = true ∧
    configureSessionManager.sameSiteLax = true ∧
    configureSessionManager.lifetimeHours = 24 ∧
    (∀ (findByEmail : String → Except StoreErr User)
       (renewFails : Bool) (renewErrMsg : String)
       (req : CredRequest) (u : User),
       findByEmail req.email = .ok u →
       u.comparePassword req.password = true →
       (handleSessionCreate findByEmail renewFails renewErrMsg (.ok req)).1 =
         [.renew (!renewFails), .put "user_id" u.id]) := by
  refine ⟨rfl, rfl, rfl, rfl, ?_⟩
  intro findByEmail renewFails renewErrMsg req u hf hc
  cases renewFails <;> simp [handleSessionCreate, hf, hc]

theorem sessionConfig_and_login_rotation_witness :
    (handleSessionCreate
        (fun _ => .ok (User.mk 7 "user@example.org" "" (hashPassword "password")))
        false "" (.ok ⟨"user@example.org", "password"⟩)).1 =
      [.renew (!false), .put "user_id"
        (User.mk 7 "user@example.org" "" (hashPassword "password")).id] :=
  sessionConfig_and_login_rotation.2.2.2.2
    (fun _ => .ok (User.mk 7 "user@example.org" "" (hashPassword "password")))
    false "" ⟨"user@example.org", "password"⟩
    (User.mk 7 "user@example.org" "" (hashPassword "password")) rfl (by rfl)

/-- C8: the chain built by `ServeHTTP` runs request-id assignment, then the
access log, then CORS, then the session wrapper, then the router, in that
fixed order; every response carries the `X-Request-ID` header and the three
CORS headers; and an OPTIONS request, on any path, is answered 204 with no
body before the session wrapper or the router runs. -/
theorem middleware_pipeline (rid : String)
    (dispatch : HttpRequest → List Write) (r : HttpRequest) :
    (r.method ≠ "OPTIONS" →
       serveHTTP rid dispatch r =
         { stages := [.requestId, .accessLog, .corsStage, .sessionLoad,
                      .routerStage],
           headers := [("X-Request-ID", rid),
                       ("Access-Control-Allow-Origin", "*"),
                       ("Access-Control-Allow-Methods",
                        "GET, POST, PUT, DELETE, OPTIONS"),
                       ("Access-Control-Allow-Headers",
                        "Content-Type, Authorization")],
           writes := dispatch r }) ∧
    (r.method = "OPTIONS" →
       serveHTTP rid dispatch r =
         { stages := [.requestId, .accessLog, .corsStage],
           headers := [("X-Request-ID", rid),
                       ("Access-Control-Allow-Origin", "*"),
                       ("Access-Control-Allow-Methods",
                        "GET, POST, PUT, DELETE, OPTIONS"),
                       ("Access-Control-Allow-Headers",
                        "Content-Type, Authorization")],
           writes := [(204, "")] }) := by
  constructor
  · intro hne
    simp [serveHTTP, setRequestID, logRequest, cors, loadAndSave, routed, hne]
  · intro he
    simp [serveHTTP, setRequestID, logRequest, cors, loadAndSave, routed, he]

theorem middleware_pipeline_witness :
    serveHTTP "req-1" (fun _ => [(200, "")]) ⟨"OPTIONS", "/users"⟩ =
      { stages := [.requestId, .accessLog, .corsStage],
        headers := [("X-Request-ID", "req-1"),
                    ("Access-Control-Allow-Origin", "*"),
                    ("Access-Control-Allow-Methods",
                     "GET, POST, PUT, DELETE, OPTIONS"),
                    ("Access-Control-Allow-Headers",
                     "Content-Type, Authorization")],
        writes := [(204, "")] } :=
  (middleware_pipeline "req-1" (fun _ => [(200, "")]) ⟨"OPTIONS", "/users"⟩).2 rfl

/-- C9: when `RenewToken` fails on an otherwise successful login, the
handler writes the 500 error response and — lacking a `return` — still
stores `user_id` into the session and then writes an additional 200 status
for the same request. -/
theorem renewToken_failure_not_atomic
    (findByEmail : String → Except StoreErr User) (renewErrMsg : String)
    (req : CredRequest) (u : User)
    (hf : findByEmail req.email = .ok u)
    (hc : u.comparePassword req.password = true) :
    handleSessionCreate findByEmail true renewErrMsg (.ok req) =
      ([.renew false, .put "user_id" u.id],
       [(500, errorBody renewErrMsg), (200, "")]) := by
  simp [handleSessionCreate, hf, hc]

theorem renewToken_failure_not_atomic_witness :
    handleSessionCreate
        (fun _ => .ok (User.mk 3 "user@example.org" "" (hashPassword "password")))
        true "renew failed" (.ok ⟨"user@example.org", "password"⟩) =
      ([.renew false, .put "user_id"
          (User.mk 3 "user@example.org" "" (hashPassword "password")).id],
       [(500, errorBody "renew failed"), (200, "")]) :=
  renewToken_failure_not_atomic
    (fun _ => .ok (User.mk 3 "user@example.org" "" (hashPassword "password")))
    "renew failed" ⟨"user@example.org", "password"⟩
    (User.mk 3 "user@example.org" "" (hashPassword "password")) rfl (by rfl)

/-- C10: the router dispatch is total — in particular `/whoami` is reachable
only through the `/private/` group, whose gate always hands the wrapped mux
a present (`some`) resolved user, so `handleWoami`'s unchecked type
assertion on the context value (`none` result = panic) never fires. -/
theorem routerDispatch_total (create : User → Except StoreErr User)
    (findByEmail : String → Except StoreErr User)
    (find : Int → Except StoreErr User)
    (sessionData : List (String × Int))
    (renewFails : Bool) (renewErrMsg : String)
    (decoded : Except String CredRequest) (path : String) :
    (routerDispatch create findByEmail find sessionData renewFails
        renewErrMsg decoded path).isSome = true := by
  unfold routerDispatch
  split
  · rfl
  · split
    · rfl
    · split
      · simp only [authenticateUser]
        split
        · rfl
        · split
          · rfl
          · unfold privateMux handleWoami
            split
            · rfl
            · rfl
      · rfl
